import Mathlib

/-!
Verification of the pharma-bd-dashboard pipeline (fetch → parse → normalize →
concatenate → aggregate) against its specification.

The repository holds three variants of the same Streamlit script:
`app.py` (original, no retry and no exception handling around fetches),
`pharma_dashboard_v1.py` (retries, per-source try/except in the driver) and
`app_patched.py` (same retry structure, diagnostics added).  The parsing,
normalization and aggregation code is textually identical across the variants
(`pharma_dashboard_v1.py` merely omits the two always-None regulatory columns
from trial records); the embedding below follows `app_patched.py` and notes
where `app.py` differs.

Python values decoded from JSON are embedded as `JVal`; Python exceptions that
the scripts can raise are embedded as `PyErr`, and fallible Python expressions
return `Except PyErr _`.
-/

/-- A decoded JSON value (the shape `requests.Response.json()` returns):
null, string, integer, array, or object (dict with string keys). -/
inductive JVal : Type where
  | null : JVal
  | str : String → JVal
  | num : Int → JVal
  | arr : List JVal → JVal
  | obj : List (String × JVal) → JVal

/-- The `requests` exceptions a single fetch attempt can record as
`last_exception`: `requests.HTTPError(f"Status {code}")` built for a non-200
response, `requests.Timeout`, or another `requests.RequestException`. -/
inductive FailCause : Type where
  | httpError : Nat → FailCause
  | timeout : FailCause
  | requestException : FailCause
  deriving DecidableEq, Repr

/-- The Python exceptions the scripts can raise. -/
inductive PyErr : Type where
  | keyError : String → PyErr
  | indexError : PyErr
  | typeError : PyErr
  | attributeError : PyErr
  | cause : FailCause → PyErr
  | runtimeError : Option FailCause → PyErr
  deriving DecidableEq, Repr

/-- First binding of a key in an object field list (Python dict lookup;
keys in a decoded JSON dict are unique, so first binding is the binding). -/
def lookupField : List (String × JVal) → String → Option JVal
  | [], _ => none
  | (k, v) :: rest, key => if k = key then some v else lookupField rest key

/-- Python `d.get(key, default)`: on a dict, the bound value or the default;
on any non-dict value, AttributeError (no `get` attribute). -/
def pyGet (v : JVal) (key : String) (default : JVal) : Except PyErr JVal :=
  match v with
  | JVal.obj fields => Except.ok ((lookupField fields key).getD default)
  | _ => Except.error PyErr.attributeError

/-- Python `d[key]` with a string key: on a dict, the bound value or KeyError;
on anything else, TypeError (not subscriptable by a string). -/
def pySubscript (v : JVal) (key : String) : Except PyErr JVal :=
  match v with
  | JVal.obj fields =>
    match lookupField fields key with
    | some w => Except.ok w
    | none => Except.error (PyErr.keyError key)
  | _ => Except.error PyErr.typeError

/-- Python `x[0]`: head of a non-empty list; IndexError on an empty list or
empty string; the first character (as a string) of a non-empty string;
TypeError on anything not subscriptable by an integer. -/
def pyIndexZero (v : JVal) : Except PyErr JVal :=
  match v with
  | JVal.arr (x :: _) => Except.ok x
  | JVal.arr [] => Except.error PyErr.indexError
  | JVal.str s =>
    match s.data with
    | c :: _ => Except.ok (JVal.str (String.mk [c]))
    | [] => Except.error PyErr.indexError
  | _ => Except.error PyErr.typeError

/-- Python iteration `for x in v`: a list yields its elements, a string its
characters (as one-character strings), a dict its keys; null and numbers are
not iterable (TypeError). -/
def pyIter (v : JVal) : Except PyErr (List JVal) :=
  match v with
  | JVal.arr xs => Except.ok xs
  | JVal.str s => Except.ok (s.data.map fun c => JVal.str (String.mk [c]))
  | JVal.obj fields => Except.ok (fields.map fun kv => JVal.str kv.1)
  | _ => Except.error PyErr.typeError

/-- Python truthiness: None, empty string, 0, empty list and empty dict are
falsy; everything else is truthy. -/
def pyTruthy : JVal → Bool
  | JVal.null => false
  | JVal.str s => !s.isEmpty
  | JVal.num n => n ≠ 0
  | JVal.arr xs => !xs.isEmpty
  | JVal.obj fields => !fields.isEmpty

/-! ## Calendar dates

`pd.to_datetime(col, errors="coerce")` turns each raw date value into a
timestamp, or NaT when it cannot be parsed; `dropna(subset=["date"])` then
removes the NaT rows.  `parseDate` models that coercion for the string date
forms this data carries (compact `YYYYMMDD`, as in the regulatory feed's
`submission_date`, and dashed `YYYY-MM-DD`), with full calendar validity;
values outside this modelled fragment map to `none` (unparseable). -/

def digitVal (c : Char) : Option Nat :=
  if c.isDigit then some (c.toNat - 48) else none

def natOfDigits : List Char → Option Nat
  | [] => some 0
  | c :: rest => do
    let d ← digitVal c
    let r ← natOfDigits rest
    pure (d * 10 ^ rest.length + r)

def isLeapYear (y : Nat) : Bool :=
  (y % 4 = 0 && y % 100 ≠ 0) || y % 400 = 0

def daysInMonth (y m : Nat) : Nat :=
  if m = 2 then (if isLeapYear y then 29 else 28)
  else if m = 4 ∨ m = 6 ∨ m = 9 ∨ m = 11 then 30
  else 31

def validDate (y m d : Nat) : Bool :=
  1 ≤ m && m ≤ 12 && 1 ≤ d && d ≤ daysInMonth y m

/-- A parsed calendar date: (year, month, day). -/
abbrev Date := Nat × Nat × Nat

def dateOfFields (ys ms ds : List Char) : Option Date := do
  let y ← natOfDigits ys
  let m ← natOfDigits ms
  let d ← natOfDigits ds
  if validDate y m d then pure (y, m, d) else none

def parseDate : JVal → Option Date
  | JVal.str s =>
    match s.data with
    | [y1, y2, y3, y4, m1, m2, d1, d2] =>
      dateOfFields [y1, y2, y3, y4] [m1, m2] [d1, d2]
    | [y1, y2, y3, y4, '-', m1, m2, '-', d1, d2] =>
      dateOfFields [y1, y2, y3, y4] [m1, m2] [d1, d2]
    | _ => none
  | _ => none

/-! ## Normalized records -/

/-- Provenance tag: the `source` column holds the literal "FDA" for
regulatory records and "ClinicalTrials.gov" for trial records. -/
inductive Source : Type where
  | fda : Source
  | trials : Source
  deriving DecidableEq, Repr

def sourceStr : Source → String
  | Source.fda => "FDA"
  | Source.trials => "ClinicalTrials.gov"

/-- A record dict as appended by `parse_fda` / `parse_trials`, before the
DataFrame date coercion (the `date` field is still the raw JSON value). -/
structure RawRow : Type where
  source : Source
  sponsor : JVal
  date : JVal
  phase : Option String
  trial_id : JVal
  submission_type : JVal
  submission_class : JVal

/-- A DataFrame row after `pd.to_datetime(..., errors="coerce")`: the date
column now holds a parsed date or NaT (`none`). -/
structure Row : Type where
  source : Source
  sponsor : JVal
  date : Option Date
  phase : Option String
  trial_id : JVal
  submission_type : JVal
  submission_class : JVal

/-- The tail of both parsers: build the DataFrame, coerce the date column
(`pd.to_datetime(df["date"], errors="coerce")`), and drop rows whose date
failed to parse (`df.dropna(subset=["date"])`).  On an empty record list the
code skips the coercion and returns the empty frame, which coincides with
mapping and filtering the empty list. -/
def finalizeRows (records : List RawRow) : List Row :=
  (records.map fun r =>
    ({ source := r.source, sponsor := r.sponsor, date := parseDate r.date,
       phase := r.phase, trial_id := r.trial_id,
       submission_type := r.submission_type,
       submission_class := r.submission_class } : Row)).filter
    fun r => r.date.isSome

/-- Body of the entry loop of `parse_fda` over one entry's submissions:
for each submission, read `submission_date` and, when truthy, append a record
carrying the parent entry's sponsor. -/
def buildFdaSubRows (sponsor : JVal) : List JVal → Except PyErr (List RawRow)
  | [] => Except.ok []
  | sub :: rest => do
    let d ← pyGet sub "submission_date" JVal.null
    let more ← buildFdaSubRows sponsor rest
    if pyTruthy d then
      let stype ← pyGet sub "submission_type" JVal.null
      let sclass ← pyGet sub "submission_class_code" JVal.null
      pure ({ source := Source.fda, sponsor := sponsor, date := d,
              phase := none, trial_id := JVal.null,
              submission_type := stype, submission_class := sclass } :: more)
    else
      pure more

/-- The entry loop of `parse_fda`: each entry contributes one record per
truthy-dated submission, sponsor taken from the entry. -/
def buildFdaRows : List JVal → Except PyErr (List RawRow)
  | [] => Except.ok []
  | entry :: rest => do
    let sponsor ← pyGet entry "sponsor_name" JVal.null
    let submissions ← pyGet entry "submissions" (JVal.arr [])
    let subs ← pyIter submissions
    let here ← buildFdaSubRows sponsor subs
    let more ← buildFdaRows rest
    pure (here ++ more)

/-- `parse_fda(data)` (identical in all three variants): iterate the raw
entries, build one record per truthy-dated submission, then coerce dates and
drop unparseable ones. -/
def parse_fda (data : JVal) : Except PyErr (List Row) := do
  let entries ← pyIter data
  let records ← buildFdaRows entries
  pure (finalizeRows records)

/-- The trial loop of `parse_trials`: each trial's `NCTId`, `Sponsors` and
`CompletionDate` fields are read with a `[""]` default and their first element
taken; a record is appended only when the completion date is truthy. -/
def buildTrialRows (phase : String) : List JVal → Except PyErr (List RawRow)
  | [] => Except.ok []
  | trial :: rest => do
    let tidArr ← pyGet trial "NCTId" (JVal.arr [JVal.str ""])
    let tid ← pyIndexZero tidArr
    let spArr ← pyGet trial "Sponsors" (JVal.arr [JVal.str ""])
    let sp ← pyIndexZero spArr
    let cdArr ← pyGet trial "CompletionDate" (JVal.arr [JVal.str ""])
    let cd ← pyIndexZero cdArr
    let more ← buildTrialRows phase rest
    if pyTruthy cd then
      pure ({ source := Source.trials, sponsor := sp, date := cd,
              phase := some phase, trial_id := tid,
              submission_type := JVal.null,
              submission_class := JVal.null } :: more)
    else
      pure more

/-- `parse_trials(data, phase)` (identical across variants up to the two
always-None regulatory columns omitted in `pharma_dashboard_v1.py`). -/
def parse_trials (data : JVal) (phase : String) : Except PyErr (List Row) := do
  let trials ← pyIter data
  let records ← buildTrialRows phase trials
  pure (finalizeRows records)

/-! ## Source clients: HTTP attempts and the retry loop

A single HTTP attempt (`requests.get(url, timeout=20)`) is modelled by its
externally determined outcome: a 200 response with a decoded JSON body, a
non-200 status, a timeout, or another network error.  The environment is an
oracle `resp : Nat → HttpOutcome` giving the outcome of the i-th attempt the
client makes (0-based, in the order the code issues them). -/

/-- Outcome of one HTTP attempt.  `badStatus code` stands for a response with
status `code ≠ 200`; a 200 response is always `ok body`. -/
inductive HttpOutcome : Type where
  | ok : JVal → HttpOutcome
  | badStatus : Nat → HttpOutcome
  | timeout : HttpOutcome
  | netError : HttpOutcome

/-- Does this attempt outcome take a retry branch (non-200 status, timeout,
or other network error)? -/
def attemptFails : HttpOutcome → Bool
  | HttpOutcome.ok _ => false
  | _ => true

/-- The `last_exception` value a failing attempt stores: the synthesized
`requests.HTTPError(f"Status {code}")` for a non-200 response, or the caught
`requests` exception. -/
def attemptErr : HttpOutcome → Option FailCause
  | HttpOutcome.ok _ => none
  | HttpOutcome.badStatus code => some (FailCause.httpError code)
  | HttpOutcome.timeout => some FailCause.timeout
  | HttpOutcome.netError => some FailCause.requestException

/-- The shared retry-loop skeleton of `fetch_fda_approvals` (patched/v1) and
`fetch_clinical_trials`.  `fuel` is the number of attempts still allowed
(`retries` per candidate URL, summed over the URLs), `i` the index of the next
attempt in the oracle, `last` the current `last_exception` (`None` initially).
Each failing attempt stores its exception, sleeps (time is not modelled) and
continues; a 200 response leaves the loop through `handle` (the body of the
success branch), whose own exceptions — `KeyError` for the trial client,
`AttributeError` for a non-dict body — are caught by none of the `except`
clauses (they catch only `requests.Timeout` / `requests.RequestException`) and
so propagate out at once.  When the fuel runs out the function raises
`RuntimeError(...) from last_exception`.  Returns the fetch result and the
number of HTTP attempts actually made. -/
def runAttempts (handle : JVal → Except PyErr JVal) (resp : Nat → HttpOutcome) :
    Nat → Nat → Option FailCause → Except PyErr JVal × Nat
  | 0, _, last => (Except.error (PyErr.runtimeError last), 0)
  | fuel + 1, i, last =>
    match resp i with
    | HttpOutcome.ok body =>
      (match handle body with
       | Except.ok v => (Except.ok v, 1)
       | Except.error e => (Except.error e, 1))
    | HttpOutcome.badStatus code =>
      let r := runAttempts handle resp fuel (i + 1) (some (FailCause.httpError code))
      (r.1, r.2 + 1)
    | HttpOutcome.timeout =>
      let r := runAttempts handle resp fuel (i + 1) (some FailCause.timeout)
      (r.1, r.2 + 1)
    | HttpOutcome.netError =>
      let r := runAttempts handle resp fuel (i + 1) (some FailCause.requestException)
      (r.1, r.2 + 1)

/-- Success branch of `fetch_fda_approvals`: `data = resp.json()` followed by
`data.get("results", [])` — a missing `results` key yields the empty list; a
non-dict body makes `.get` raise AttributeError (uncaught). -/
def fdaHandle (body : JVal) : Except PyErr JVal :=
  pyGet body "results" (JVal.arr [])

/-- Success branch of `fetch_clinical_trials`:
`response.json()["StudyFieldsResponse"]["StudyFields"]` — a missing key
raises KeyError (uncaught). -/
def trialsHandle (body : JVal) : Except PyErr JVal := do
  let sfr ← pySubscript body "StudyFieldsResponse"
  pySubscript sfr "StudyFields"

/-- The `limit` clamp at the top of `fetch_fda_approvals`
(`app_patched.py` / `pharma_dashboard_v1.py`):
`if limit is None or limit <= 0: limit = 100` then
`if limit > 100: limit = 100`.  `none` models passing `None`. -/
def fdaLimitClamp (limit : Option Int) : Int :=
  match limit with
  | none => 100
  | some l =>
    let l1 := if l ≤ 0 then 100 else l
    if l1 > 100 then 100 else l1

/-- The `limit` actually placed in the request URL by `app.py`'s
`fetch_fda_approvals`, which interpolates its argument into the URL with no
clamping at all. -/
def appFdaRequestLimit (limit : Int) : Int := limit

/-- `fetch_fda_approvals` retry structure (`app_patched.py` lines 29-61,
`pharma_dashboard_v1.py` lines 22-41): the `urls` list holds 2 candidate URLs
(primary filtered query, then the fallback without the filter clause) and the
inner loop runs `retries` attempts per URL, so the attempt sequence is the
first URL's attempts `0..retries-1` followed by the fallback URL's attempts
`retries..2*retries-1`, with `last_exception` carried across both loops. -/
def fetch_fda_approvals (resp : Nat → HttpOutcome) (retries : Nat) :
    Except PyErr JVal × Nat :=
  runAttempts fdaHandle resp (2 * retries) 0 none

/-- `fetch_clinical_trials` retry structure (`app_patched.py` lines 98-122):
a single candidate URL with `retries` attempts. -/
def fetch_clinical_trials (resp : Nat → HttpOutcome) (retries : Nat) :
    Except PyErr JVal × Nat :=
  runAttempts trialsHandle resp retries 0 none

/-! ## Aggregation

`combined["month"] = combined["date"].dt.to_period("M")` truncates each date
to (year, month); `combined.groupby([combined["month"], "source"]).size()`
counts rows per (month, source) group, with group keys sorted ascending
(month first, then the source string — "ClinicalTrials.gov" < "FDA") and
NaT-month rows dropped (pandas groupby drops null keys).  The subsequent
`.unstack(fill_value=0)` is the presentation-layer zero-fill for charting and
is outside the aggregate proper. -/

/-- A groupby key: ((year, month), source). -/
abbrev MonthKey := (Nat × Nat) × Source

/-- Rank of a source in the sort order of the literal `source` strings:
"ClinicalTrials.gov" sorts before "FDA". -/
def srcRank : Source → Nat
  | Source.trials => 0
  | Source.fda => 1

/-- Lexicographic order pandas sorts group keys by: year, then month, then
the source string. -/
def keyLe (a b : MonthKey) : Prop :=
  a.1.1 < b.1.1 ∨ (a.1.1 = b.1.1 ∧
    (a.1.2 < b.1.2 ∨ (a.1.2 = b.1.2 ∧ srcRank a.2 ≤ srcRank b.2)))

instance : DecidableRel keyLe := fun a b => by
  unfold keyLe; infer_instance

instance : IsTotal MonthKey keyLe where
  total a b := by
    rcases a with ⟨⟨ay, am⟩, asrc⟩
    rcases b with ⟨⟨by_, bm⟩, bsrc⟩
    simp only [keyLe]
    omega

instance : IsTrans MonthKey keyLe where
  trans a b c hab hbc := by
    rcases a with ⟨⟨ay, am⟩, asrc⟩
    rcases b with ⟨⟨by_, bm⟩, bsrc⟩
    rcases c with ⟨⟨cy, cm⟩, csrc⟩
    simp only [keyLe] at hab hbc ⊢
    omega

/-- The (month, source) group key of a row: `none` when the date is NaT
(such rows are dropped by groupby). -/
def rowKey (r : Row) : Option MonthKey :=
  r.date.map fun d => ((d.1, d.2.1), r.source)

/-- `combined.groupby([combined["month"], "source"]).size()`: the distinct
(month, source) keys of the rows, in ascending key order, each with the
number of rows carrying it.  Rows whose date is NaT have no key and are
dropped. -/
def monthlyCounts (rows : List Row) : List (MonthKey × Nat) :=
  let ks := (rows.filterMap rowKey).dedup
  (List.insertionSort keyLe ks).map fun k =>
    (k, rows.countP fun r => decide (rowKey r = some k))

/-- The aggregation stage of the driver (`app_patched.py` lines 185-198):
concatenate the per-source normalized record sets into the combined table
and, unless the combined table is empty (`if not combined.empty:`), derive
the monthly (month, source) counts. -/
def aggregate (recordSets : List (List Row)) : List Row × List (MonthKey × Nat) :=
  let combined := recordSets.flatten
  if combined.isEmpty then (combined, []) else (combined, monthlyCounts combined)

/-! ## Pipeline drivers

The driver scripts fetch each source, parse it, and combine.  The fetch+parse
outcome of each source is modelled by its `Except` result: `Except.ok raw`
when the fetch returned raw data, `Except.error e` when it raised `e`
(exhausted retries, or an uncaught KeyError and the like).  Phases are the
user-selected trial phases in order, each with its fetch outcome. -/

/-- The FDA branch of the patched/v1 driver: `fetch_fda_approvals` and
`parse_fda` run inside `try:`; on any exception the driver reports the error
and sets `fda_df = pd.DataFrame()` (no records). -/
def fdaBranchPatched (fda : Except PyErr JVal) : List Row :=
  match (do let raw ← fda; parse_fda raw : Except PyErr (List Row)) with
  | Except.ok rows => rows
  | Except.error _ => []

/-- The trials loop of the patched/v1 driver: each phase's fetch+parse runs
in its own `try:`; a failing phase appends nothing and the loop continues
with the next phase. -/
def trialFramesPatched (phases : List (String × Except PyErr JVal)) :
    List (List Row) :=
  phases.filterMap fun p =>
    match (do let raw ← p.2; parse_trials raw p.1 : Except PyErr (List Row)) with
    | Except.ok rows => some rows
    | Except.error _ => none

/-- The patched/v1 driver (`app_patched.py` lines 162-190,
`pharma_dashboard_v1.py` lines 123-145): FDA branch, then the per-phase
trials loop, then
`trials_df = pd.concat(trials_dfs) if trials_dfs else pd.DataFrame()` and
`combined = pd.concat([fda_df, trials_df]) if (not fda_df.empty or not
trials_df.empty) else pd.DataFrame()`. -/
def runPipelinePatched (fda : Except PyErr JVal)
    (phases : List (String × Except PyErr JVal)) : List Row :=
  let fdaDf := fdaBranchPatched fda
  let trialsDf := (trialFramesPatched phases).flatten
  if fdaDf.isEmpty ∧ trialsDf.isEmpty then [] else fdaDf ++ trialsDf

/-- Written from the spec's words, for comparison with the drivers: "each
source is fetched and normalized independently, and the aggregator combines
whatever succeeded" — the combined table is the concatenation of the
normalized record sets of the succeeding fetches only, regulatory first,
then each phase in order; a failing source contributes nothing. -/
def specCombined (fda : Except PyErr JVal)
    (phases : List (String × Except PyErr JVal)) : List Row :=
  (match fda with
   | Except.ok raw =>
     match parse_fda raw with
     | Except.ok rows => rows
     | Except.error _ => []
   | Except.error _ => []) ++
  (phases.map fun p =>
    match p.2 with
    | Except.ok raw =>
      match parse_trials raw p.1 with
      | Except.ok rows => rows
      | Except.error _ => []
    | Except.error _ => []).flatten

/-- The original `app.py` driver (lines 91-105): no `try/except` anywhere —
`fetch_fda_approvals` and `parse_fda` run bare, then each phase's fetch+parse
runs bare, then `combined = pd.concat([fda_df, trials_df])`.  Any exception
aborts the whole run, modelled by the `Except` monad. -/
def runPipelineApp (fda : Except PyErr JVal)
    (phases : List (String × Except PyErr JVal)) : Except PyErr (List Row) := do
  let fdaRaw ← fda
  let fdaDf ← parse_fda fdaRaw
  let trialsDfs ← phases.mapM fun p => do
    let raw ← p.2
    parse_trials raw p.1
  pure (fdaDf ++ trialsDfs.flatten)

/-! ## Shape predicates and concrete scenario data used by the theorems -/

/-- Is this value a Python dict? -/
def isObjB : JVal → Bool
  | JVal.obj _ => true
  | _ => false

/-- A field that, when present, is a non-empty array (so taking `[0]` of it,
or of the `[""]` default when absent, cannot raise). -/
def fieldFirstOk (fields : List (String × JVal)) (key : String) : Bool :=
  match lookupField fields key with
  | none => true
  | some (JVal.arr (_ :: _)) => true
  | some _ => false

/-- A raw trial record on which `parse_trials` cannot raise: a dict whose
`NCTId`, `Sponsors` and `CompletionDate` fields, when present, are non-empty
arrays (the singleton-array shape the registry returns). -/
def trialShapeOk : JVal → Bool
  | JVal.obj fields =>
    fieldFirstOk fields "NCTId" && fieldFirstOk fields "Sponsors" &&
      fieldFirstOk fields "CompletionDate"
  | _ => false

/-- A raw regulatory entry on which `parse_fda` cannot raise: a dict whose
`submissions` field, when present, is an array of dicts. -/
def fdaEntryShapeOk : JVal → Bool
  | JVal.obj fields =>
    match lookupField fields "submissions" with
    | none => true
    | some (JVal.arr subs) => subs.all isObjB
    | some _ => false
  | _ => false

/-- The normalized record one submission dict of a regulatory entry yields:
`some` row exactly when its `submission_date` is truthy (non-empty) and
parses as a calendar date; the sponsor comes from the parent entry. -/
def subRow (sponsor : JVal) (fields : List (String × JVal)) : Option Row :=
  let d := (lookupField fields "submission_date").getD JVal.null
  if pyTruthy d then
    (parseDate d).map fun dt =>
      { source := Source.fda, sponsor := sponsor, date := some dt,
        phase := none, trial_id := JVal.null,
        submission_type := (lookupField fields "submission_type").getD JVal.null,
        submission_class := (lookupField fields "submission_class_code").getD JVal.null }
  else none

/-- Year-month order used to state that aggregation output is sorted by
month ascending. -/
def monthLe (a b : Nat × Nat) : Prop :=
  a.1 < b.1 ∨ (a.1 = b.1 ∧ a.2 ≤ b.2)

/-- The raw regulatory JSON of the spec's scenario:
`{results:[{sponsor_name:"Acme", submissions:[{submission_date:"20230115",
submission_type:"ORIG"}]}]}` — `parse_fda` receives the `results` list. -/
def acmeRaw : JVal :=
  JVal.arr [JVal.obj [("sponsor_name", JVal.str "Acme"),
    ("submissions", JVal.arr [JVal.obj [("submission_date", JVal.str "20230115"),
      ("submission_type", JVal.str "ORIG")]])]]

/-- The single normalized record the Acme scenario must produce. -/
def acmeRow : Row :=
  { source := Source.fda, sponsor := JVal.str "Acme", date := some (2023, 1, 15),
    phase := none, trial_id := JVal.null,
    submission_type := JVal.str "ORIG", submission_class := JVal.null }

/-- A raw trial-registry result list holding one completed Phase-3 trial. -/
def sampleTrialsRaw : JVal :=
  JVal.arr [JVal.obj [("NCTId", JVal.arr [JVal.str "NCT1"]),
    ("Sponsors", JVal.arr [JVal.str "S"]),
    ("CompletionDate", JVal.arr [JVal.str "20230110"])]]

/-- The normalized record `sampleTrialsRaw` yields for phase "Phase 3". -/
def sampleTrialRow : Row :=
  { source := Source.trials, sponsor := JVal.str "S", date := some (2023, 1, 10),
    phase := some "Phase 3", trial_id := JVal.str "NCT1",
    submission_type := JVal.null, submission_class := JVal.null }

/-- A combined-table row with only the fields aggregation looks at. -/
def datedRow (s : Source) (y m d : Nat) : Row :=
  { source := s, sponsor := JVal.null, date := some (y, m, d), phase := none,
    trial_id := JVal.null, submission_type := JVal.null,
    submission_class := JVal.null }

/-- The spec's aggregation scenario: months 2023-01 (2 regulatory, 1 trial)
and 2023-02 (0 regulatory, 2 trial). -/
def scenarioRows : List Row :=
  [datedRow Source.fda 2023 1 10, datedRow Source.fda 2023 1 20,
   datedRow Source.trials 2023 1 5, datedRow Source.trials 2023 2 7,
   datedRow Source.trials 2023 2 9]

/-! ## Lemmas about the retry loop -/

theorem runAttempts_step_fail (handle : JVal → Except PyErr JVal)
    (resp : Nat → HttpOutcome) (f i : Nat) (last : Option FailCause)
    (h : attemptFails (resp i) = true) :
    runAttempts handle resp (f + 1) i last =
      ((runAttempts handle resp f (i + 1) (attemptErr (resp i))).1,
       (runAttempts handle resp f (i + 1) (attemptErr (resp i))).2 + 1) := by
  rcases hf : resp i with body | code | _ | _
  · rw [hf] at h; simp [attemptFails] at h
  all_goals simp [runAttempts, hf, attemptErr]

theorem runAttempts_all_fail (handle : JVal → Except PyErr JVal)
    (resp : Nat → HttpOutcome) :
    ∀ fuel i last, 0 < fuel →
      (∀ j, j < fuel → attemptFails (resp (i + j)) = true) →
      runAttempts handle resp fuel i last =
        (Except.error (PyErr.runtimeError (attemptErr (resp (i + fuel - 1)))), fuel) := by
  intro fuel
  induction fuel with
  | zero => intro i last h; omega
  | succ f ih =>
    intro i last _ hfail
    have h0 : attemptFails (resp (i + 0)) = true := hfail 0 (Nat.succ_pos f)
    rw [Nat.add_zero] at h0
    rw [runAttempts_step_fail handle resp f i last h0]
    rcases Nat.eq_zero_or_pos f with hz | hpos
    · subst hz
      rcases hf : resp i with body | code | _ | _
      · rw [hf] at h0; simp [attemptFails] at h0
      all_goals simp [runAttempts, hf, attemptErr]
    · have hrest : ∀ j, j < f → attemptFails (resp (i + 1 + j)) = true := by
        intro j hj
        have := hfail (j + 1) (by omega)
        rwa [show i + (j + 1) = i + 1 + j by omega] at this
      rw [ih (i + 1) (attemptErr (resp i)) hpos hrest]
      rw [show i + 1 + f - 1 = i + (f + 1) - 1 by omega]

theorem runAttempts_success (handle : JVal → Except PyErr JVal)
    (resp : Nat → HttpOutcome) (body : JVal) :
    ∀ k fuel i last, k < fuel →
      (∀ j, j < k → attemptFails (resp (i + j)) = true) →
      resp (i + k) = HttpOutcome.ok body →
      runAttempts handle resp fuel i last = (handle body, k + 1) := by
  intro k
  induction k with
  | zero =>
    intro fuel i last hk _ hok
    rw [Nat.add_zero] at hok
    rcases fuel with _ | f
    · omega
    · simp only [runAttempts, hok]
      rcases handle body with v | e <;> rfl
  | succ k ih =>
    intro fuel i last hk hfail hok
    have h0 : attemptFails (resp (i + 0)) = true := hfail 0 (Nat.succ_pos k)
    rw [Nat.add_zero] at h0
    rcases fuel with _ | f
    · omega
    have hrest : ∀ j, j < k → attemptFails (resp (i + 1 + j)) = true := by
      intro j hj
      have := hfail (j + 1) (by omega)
      rwa [show i + (j + 1) = i + 1 + j by omega] at this
    have hok1 : resp (i + 1 + k) = HttpOutcome.ok body := by
      rwa [show i + 1 + k = i + (k + 1) by omega]
    rw [runAttempts_step_fail handle resp f i last h0,
      ih f (i + 1) (attemptErr (resp i)) (by omega) hrest hok1]

theorem okBind {ε α β : Type} (a : α) (f : α → Except ε β) :
    (Except.ok a >>= f) = f a := rfl

theorem errBind {ε α β : Type} (e : ε) (f : α → Except ε β) :
    ((Except.error e : Except ε α) >>= f) = Except.error e := rfl

/-! ## Claim theorems: source clients -/

/-- C2: a client whose attempts all fail (non-200 status or network/timeout
error on every attempt, on every candidate URL) fails with the exhaustion
`RuntimeError` carrying the last underlying cause, after exactly
`retries × urlCount` HTTP attempts — urlCount = 2 for the regulatory client,
1 for the trial-registry client. -/
theorem fetch_exhaustion (retries : Nat) (respF respT : Nat → HttpOutcome)
    (hr : 1 ≤ retries)
    (hF : ∀ j, j < 2 * retries → attemptFails (respF j) = true)
    (hT : ∀ j, j < retries → attemptFails (respT j) = true) :
    fetch_fda_approvals respF retries =
      (Except.error (PyErr.runtimeError (attemptErr (respF (2 * retries - 1)))),
        2 * retries) ∧
    fetch_clinical_trials respT retries =
      (Except.error (PyErr.runtimeError (attemptErr (respT (retries - 1)))),
        retries) := by
  constructor
  · have := runAttempts_all_fail fdaHandle respF (2 * retries) 0 none (by omega)
      (by intro j hj; rw [Nat.zero_add]; exact hF j hj)
    rw [Nat.zero_add] at this
    exact this
  · have := runAttempts_all_fail trialsHandle respT retries 0 none (by omega)
      (by intro j hj; rw [Nat.zero_add]; exact hT j hj)
    rw [Nat.zero_add] at this
    exact this

/-- Witness for C2: with retries = 2, a regulatory client failing all four
attempts (network errors) and a trial client answering 500 on both attempts
are exhausted with the last cause attached. -/
theorem fetch_exhaustion_witness :
    fetch_fda_approvals (fun _ => HttpOutcome.netError) 2 =
      (Except.error (PyErr.runtimeError (some FailCause.requestException)), 4) ∧
    fetch_clinical_trials (fun _ => HttpOutcome.badStatus 500) 2 =
      (Except.error (PyErr.runtimeError (some (FailCause.httpError 500))), 2) :=
  fetch_exhaustion 2 (fun _ => HttpOutcome.netError)
    (fun _ => HttpOutcome.badStatus 500) (by omega)
    (fun _ _ => rfl) (fun _ _ => rfl)

/-- C3: a client whose first `retries − 1` attempts fail and whose
`retries`-th attempt returns HTTP 200 returns the decoded result of the
successful attempt after exactly `retries` attempts, not more (for the
regulatory client the decoded result is `data.get("results", [])`; for the
trial client, the nested study-field list). -/
theorem fetch_retry_success (retries : Nat) (respF respT : Nat → HttpOutcome)
    (bodyF bodyT vF vT : JVal) (hr : 1 ≤ retries)
    (hFfail : ∀ j, j < retries - 1 → attemptFails (respF j) = true)
    (hFok : respF (retries - 1) = HttpOutcome.ok bodyF)
    (hFdec : fdaHandle bodyF = Except.ok vF)
    (hTfail : ∀ j, j < retries - 1 → attemptFails (respT j) = true)
    (hTok : respT (retries - 1) = HttpOutcome.ok bodyT)
    (hTdec : trialsHandle bodyT = Except.ok vT) :
    fetch_fda_approvals respF retries = (Except.ok vF, retries) ∧
    fetch_clinical_trials respT retries = (Except.ok vT, retries) := by
  constructor
  · have := runAttempts_success fdaHandle respF bodyF (retries - 1) (2 * retries)
      0 none (by omega) (by intro j hj; rw [Nat.zero_add]; exact hFfail j hj)
      (by rw [Nat.zero_add]; exact hFok)
    rw [hFdec, Nat.sub_add_cancel hr] at this
    exact this
  · have := runAttempts_success trialsHandle respT bodyT (retries - 1) retries
      0 none (by omega) (by intro j hj; rw [Nat.zero_add]; exact hTfail j hj)
      (by rw [Nat.zero_add]; exact hTok)
    rw [hTdec, Nat.sub_add_cancel hr] at this
    exact this

/-- Witness for C3: with retries = 2, clients that time out once and then
answer 200 return the decoded result after exactly 2 attempts. -/
theorem fetch_retry_success_witness :
    fetch_fda_approvals
      (fun i => if i = 1 then
          HttpOutcome.ok (JVal.obj [("results", JVal.arr [JVal.str "r"])])
        else HttpOutcome.timeout) 2 =
      (Except.ok (JVal.arr [JVal.str "r"]), 2) ∧
    fetch_clinical_trials
      (fun i => if i = 1 then
          HttpOutcome.ok (JVal.obj [("StudyFieldsResponse",
            JVal.obj [("StudyFields", JVal.arr [])])])
        else HttpOutcome.timeout) 2 =
      (Except.ok (JVal.arr []), 2) :=
  fetch_retry_success 2 _ _ _ _ _ _ (by omega)
    (fun j hj => by interval_cases j <;> rfl) rfl rfl
    (fun j hj => by interval_cases j <;> rfl) rfl rfl

/-- C10: on an HTTP 200 response whose JSON body lacks the expected
`StudyFieldsResponse`/`StudyFields` keys, the trial-registry fetch raises a
KeyError on the first attempt — not caught by the retry handlers, not
retried, and not wrapped in the exhaustion RuntimeError — whereas the
regulatory fetch returns the empty list when its 200 body lacks `results`. -/
theorem fetch_missing_keys (retries : Nat) (respT respT2 respF : Nat → HttpOutcome)
    (fieldsT fieldsT2 gT fieldsF : List (String × JVal)) (hr : 1 ≤ retries)
    (hTa : lookupField fieldsT "StudyFieldsResponse" = none)
    (hT0 : respT 0 = HttpOutcome.ok (JVal.obj fieldsT))
    (hT2a : lookupField fieldsT2 "StudyFieldsResponse" = some (JVal.obj gT))
    (hT2b : lookupField gT "StudyFields" = none)
    (hT20 : respT2 0 = HttpOutcome.ok (JVal.obj fieldsT2))
    (hFa : lookupField fieldsF "results" = none)
    (hF0 : respF 0 = HttpOutcome.ok (JVal.obj fieldsF)) :
    fetch_clinical_trials respT retries =
      (Except.error (PyErr.keyError "StudyFieldsResponse"), 1) ∧
    fetch_clinical_trials respT2 retries =
      (Except.error (PyErr.keyError "StudyFields"), 1) ∧
    fetch_fda_approvals respF retries = (Except.ok (JVal.arr []), 1) := by
  refine ⟨?_, ?_, ?_⟩
  · have := runAttempts_success trialsHandle respT (JVal.obj fieldsT) 0 retries
      0 none (by omega) (by omega) hT0
    unfold fetch_clinical_trials
    rw [this]
    simp [trialsHandle, pySubscript, hTa, okBind, errBind]
  · have := runAttempts_success trialsHandle respT2 (JVal.obj fieldsT2) 0 retries
      0 none (by omega) (by omega) hT20
    unfold fetch_clinical_trials
    rw [this]
    simp [trialsHandle, pySubscript, hT2a, hT2b, okBind, errBind]
  · have := runAttempts_success fdaHandle respF (JVal.obj fieldsF) 0 (2 * retries)
      0 none (by omega) (by omega) hF0
    unfold fetch_fda_approvals
    rw [this]
    simp [fdaHandle, pyGet, hFa]

/-- Witness for C10: a 200 response with an empty-dict body makes the trial
fetch raise KeyError at once even with retries = 3, while the regulatory
fetch returns the empty list. -/
theorem fetch_missing_keys_witness :
    fetch_clinical_trials (fun _ => HttpOutcome.ok (JVal.obj [])) 3 =
      (Except.error (PyErr.keyError "StudyFieldsResponse"), 1) ∧
    fetch_clinical_trials
      (fun _ => HttpOutcome.ok
        (JVal.obj [("StudyFieldsResponse", JVal.obj [])])) 3 =
      (Except.error (PyErr.keyError "StudyFields"), 1) ∧
    fetch_fda_approvals (fun _ => HttpOutcome.ok (JVal.obj [])) 3 =
      (Except.ok (JVal.arr []), 1) :=
  fetch_missing_keys 3 _ _ _ [] [("StudyFieldsResponse", JVal.obj [])] [] []
    (by omega) rfl rfl rfl rfl rfl rfl rfl

/-- C5 counterexample: the patched regulatory client replaces the
out-of-range limit 0 by the default 100, not by the nearest bound 1, and the
original `app.py` client puts the out-of-range limit 500 in the request
unchanged, outside 1–100. -/
theorem fda_limit_clamp_cex :
    fdaLimitClamp (some 0) = 100 ∧ ¬ (100 : Int) = 1 ∧
    appFdaRequestLimit 500 = 500 ∧
    ¬ ((1 : Int) ≤ 500 ∧ (500 : Int) ≤ 100) := by
  refine ⟨rfl, by omega, rfl, by omega⟩

/-- C5 amended: in `app_patched.py`/`pharma_dashboard_v1.py` the regulatory
client brings `limit` into 1–100 before the request — in-range values pass
unchanged, values above 100 clamp to 100, but `None` and non-positive values
are replaced by the default 100 (not the nearest bound); in `app.py` the
limit is not clamped at all. -/
theorem fda_limit_clamp_amended (x : Int) :
    1 ≤ fdaLimitClamp (some x) ∧ fdaLimitClamp (some x) ≤ 100 ∧
    fdaLimitClamp none = 100 ∧
    (x ≤ 0 → fdaLimitClamp (some x) = 100) ∧
    (1 ≤ x → x ≤ 100 → fdaLimitClamp (some x) = x) ∧
    (100 < x → fdaLimitClamp (some x) = 100) ∧
    appFdaRequestLimit x = x := by
  refine ⟨?_, ?_, rfl, ?_, ?_, ?_, rfl⟩ <;>
    (simp only [fdaLimitClamp]; split_ifs <;> omega)

/-- Witness for C5 amended: 150 clamps to 100, 50 passes unchanged, 0 is
replaced by the default 100. -/
theorem fda_limit_clamp_amended_witness :
    fdaLimitClamp (some 150) = 100 ∧ fdaLimitClamp (some 50) = 50 ∧
    fdaLimitClamp (some 0) = 100 :=
  ⟨(fda_limit_clamp_amended 150).2.2.2.2.2.1 (by omega),
   (fda_limit_clamp_amended 50).2.2.2.2.1 (by omega) (by omega),
   (fda_limit_clamp_amended 0).2.2.2.1 (by omega)⟩

/-! ## Lemmas about the normalizers -/

theorem pureExceptOk {e a : Type} (x : a) : (pure x : Except e a) = Except.ok x := rfl

theorem finalizeRows_nil : finalizeRows [] = [] := rfl

theorem finalizeRows_cons (r : RawRow) (rs : List RawRow) :
    finalizeRows (r :: rs) =
      (match parseDate r.date with
       | some dt =>
         ({ source := r.source, sponsor := r.sponsor, date := some dt,
            phase := r.phase, trial_id := r.trial_id,
            submission_type := r.submission_type,
            submission_class := r.submission_class } : Row) :: finalizeRows rs
       | none => finalizeRows rs) := by
  cases h : parseDate r.date <;> simp [finalizeRows, h]

theorem mem_finalizeRows_dated (r : Row) (rs : List RawRow)
    (h : r ∈ finalizeRows rs) : r.date.isSome = true :=
  (List.mem_filter.mp h).2

theorem buildFdaSubRows_objs (sp : JVal) :
    ∀ sfs : List (List (String × JVal)),
      ∃ raws, buildFdaSubRows sp (sfs.map JVal.obj) = Except.ok raws ∧
        finalizeRows raws = sfs.filterMap (subRow sp) := by
  intro sfs
  induction sfs with
  | nil => exact ⟨[], rfl, rfl⟩
  | cons fields rest ih =>
    obtain ⟨raws, h1, h2⟩ := ih
    cases hd : pyTruthy ((lookupField fields "submission_date").getD JVal.null) with
    | false =>
      refine ⟨raws, ?_, ?_⟩
      · simp [buildFdaSubRows, pyGet, okBind, h1, hd, pureExceptOk]
      · rw [h2]
        simp [List.filterMap_cons, subRow, hd]
    | true =>
      refine ⟨{ source := Source.fda, sponsor := sp,
                date := (lookupField fields "submission_date").getD JVal.null,
                phase := none, trial_id := JVal.null,
                submission_type := (lookupField fields "submission_type").getD JVal.null,
                submission_class := (lookupField fields "submission_class_code").getD JVal.null } :: raws, ?_, ?_⟩
      · simp [buildFdaSubRows, pyGet, okBind, h1, hd, pureExceptOk]
      · rw [finalizeRows_cons]
        cases hp : parseDate ((lookupField fields "submission_date").getD JVal.null) with
        | none => simp [h2, List.filterMap_cons, subRow, hd, hp]
        | some dt => simp [h2, List.filterMap_cons, subRow, hd, hp]

theorem all_objs_eq_map (subs : List JVal) (h : ∀ s ∈ subs, isObjB s = true) :
    ∃ sfs : List (List (String × JVal)), subs = sfs.map JVal.obj := by
  induction subs with
  | nil => exact ⟨[], rfl⟩
  | cons s rest ih =>
    obtain ⟨sfs, hsfs⟩ := ih fun t ht => h t (List.mem_cons_of_mem _ ht)
    have hs := h s (List.mem_cons_self ..)
    cases s with
    | obj fields => exact ⟨fields :: sfs, by rw [List.map_cons, hsfs]⟩
    | null => simp [isObjB] at hs
    | str a => simp [isObjB] at hs
    | num a => simp [isObjB] at hs
    | arr a => simp [isObjB] at hs

theorem buildFdaRows_total :
    ∀ entries : List JVal, (∀ e ∈ entries, fdaEntryShapeOk e = true) →
      ∃ raws, buildFdaRows entries = Except.ok raws := by
  intro entries
  induction entries with
  | nil => exact fun _ => ⟨[], rfl⟩
  | cons entry rest ih =>
    intro h
    obtain ⟨raws2, h2⟩ := ih fun t ht => h t (List.mem_cons_of_mem _ ht)
    have hs := h entry (List.mem_cons_self ..)
    cases entry with
    | obj fields =>
      have hsub : ∃ subs,
          pyIter ((lookupField fields "submissions").getD (JVal.arr [])) =
            Except.ok subs ∧
          ∃ raws1, buildFdaSubRows
            ((lookupField fields "sponsor_name").getD JVal.null) subs =
              Except.ok raws1 := by
        cases hlk : lookupField fields "submissions" with
        | none => exact ⟨[], by simp [hlk, pyIter], [], rfl⟩
        | some v =>
          simp only [fdaEntryShapeOk, hlk] at hs
          cases v with
          | arr subs =>
            obtain ⟨sfs, rfl⟩ := all_objs_eq_map subs
              (by simpa [List.all_eq_true] using hs)
            obtain ⟨raws1, h1, _⟩ := buildFdaSubRows_objs
              ((lookupField fields "sponsor_name").getD JVal.null) sfs
            exact ⟨sfs.map JVal.obj, by simp [hlk, pyIter], raws1, h1⟩
          | null => simp at hs
          | str a => simp at hs
          | num a => simp at hs
          | obj a => simp at hs
      obtain ⟨subs, hsubs, raws1, h1⟩ := hsub
      refine ⟨raws1 ++ raws2, ?_⟩
      simp only [buildFdaRows, pyGet, okBind, hsubs, h1, h2, pureExceptOk]
    | null => simp [fdaEntryShapeOk] at hs
    | str a => simp [fdaEntryShapeOk] at hs
    | num a => simp [fdaEntryShapeOk] at hs
    | arr a => simp [fdaEntryShapeOk] at hs

theorem indexZero_fieldOk (fields : List (String × JVal)) (key : String)
    (h : fieldFirstOk fields key = true) :
    ∃ w, pyIndexZero ((lookupField fields key).getD (JVal.arr [JVal.str ""])) =
      Except.ok w := by
  unfold fieldFirstOk at h
  cases hlk : lookupField fields key with
  | none => exact ⟨JVal.str "", by simp [hlk, pyIndexZero]⟩
  | some v =>
    rw [hlk] at h
    cases v with
    | arr xs =>
      cases xs with
      | nil => simp at h
      | cons x tail => exact ⟨x, by simp [hlk, pyIndexZero]⟩
    | null => simp at h
    | str a => simp at h
    | num a => simp at h
    | obj a => simp at h

theorem buildTrialRows_total (ph : String) :
    ∀ ts : List JVal, (∀ t ∈ ts, trialShapeOk t = true) →
      ∃ raws, buildTrialRows ph ts = Except.ok raws := by
  intro ts
  induction ts with
  | nil => exact fun _ => ⟨[], rfl⟩
  | cons t rest ih =>
    intro h
    obtain ⟨raws, hraws⟩ := ih fun u hu => h u (List.mem_cons_of_mem _ hu)
    have hs := h t (List.mem_cons_self ..)
    cases t with
    | obj fields =>
      simp only [trialShapeOk, Bool.and_eq_true] at hs
      obtain ⟨⟨hid, hsp⟩, hcd⟩ := hs
      obtain ⟨tid, htid⟩ := indexZero_fieldOk fields "NCTId" hid
      obtain ⟨sp, hsp2⟩ := indexZero_fieldOk fields "Sponsors" hsp
      obtain ⟨cd, hcd2⟩ := indexZero_fieldOk fields "CompletionDate" hcd
      cases hcdt : pyTruthy cd with
      | false =>
        refine ⟨raws, ?_⟩
        simp only [buildTrialRows, pyGet, okBind, htid, hsp2, hcd2, hraws,
          hcdt, pureExceptOk, Bool.false_eq_true, if_false]
      | true =>
        refine ⟨{ source := Source.trials, sponsor := sp, date := cd,
                  phase := some ph, trial_id := tid,
                  submission_type := JVal.null,
                  submission_class := JVal.null } :: raws, ?_⟩
        simp only [buildTrialRows, pyGet, okBind, htid, hsp2, hcd2, hraws,
          hcdt, pureExceptOk, if_true]
    | null => simp [trialShapeOk] at hs
    | str a => simp [trialShapeOk] at hs
    | num a => simp [trialShapeOk] at hs
    | arr a => simp [trialShapeOk] at hs

/-- C4 counterexample: the normalizers are not total — a raw trial record
dict whose `NCTId` field is present but an empty array makes `parse_trials`
raise IndexError instead of returning records. -/
theorem parse_trials_not_total_cex :
    parse_trials (JVal.arr [JVal.obj [("NCTId", JVal.arr [])]]) "Phase 3" =
      Except.error PyErr.indexError := rfl

/-- C4 amended: the normalizers never raise on lists of record dicts of the
shape the registries return — trial dicts whose `NCTId`/`Sponsors`/
`CompletionDate` fields, when present, are non-empty arrays, and regulatory
dicts whose `submissions` field, when present, is an array of dicts;
malformed or missing fields inside that shape only produce field-level nulls
or record exclusion.  Outside it `parse_trials` raises IndexError on a
present-but-empty array field, and non-dict records or non-list `submissions`
raise AttributeError/TypeError. -/
theorem parsers_total_on_registry_shape (entries ts : List JVal) (ph : String)
    (hE : ∀ e ∈ entries, fdaEntryShapeOk e = true)
    (hT : ∀ t ∈ ts, trialShapeOk t = true) :
    (∃ rows, parse_fda (JVal.arr entries) = Except.ok rows) ∧
    (∃ rows, parse_trials (JVal.arr ts) ph = Except.ok rows) := by
  constructor
  · obtain ⟨raws, hraws⟩ := buildFdaRows_total entries hE
    exact ⟨finalizeRows raws,
      by simp only [parse_fda, pyIter, okBind, hraws, pureExceptOk]⟩
  · obtain ⟨raws, hraws⟩ := buildTrialRows_total ph ts hT
    exact ⟨finalizeRows raws,
      by simp only [parse_trials, pyIter, okBind, hraws, pureExceptOk]⟩

/-- Witness for C4 amended: a registry-shaped trial record with a missing
sponsor field and an unparseable completion date, and a regulatory entry with
no submissions, both normalize without raising. -/
theorem parsers_total_witness :
    (∃ rows, parse_fda (JVal.arr [JVal.obj [("sponsor_name", JVal.str "A")]]) =
      Except.ok rows) ∧
    (∃ rows, parse_trials (JVal.arr [JVal.obj [("NCTId", JVal.arr [JVal.str "N"]),
      ("CompletionDate", JVal.arr [JVal.str "someday"])]]) "Phase 2" =
      Except.ok rows) :=
  parsers_total_on_registry_shape _ _ "Phase 2" (by decide) (by decide)

/-- C7 counterexample: a submission carrying a non-empty `submission_date`
("notadate") yields zero records, not one — the claim's "one record per
nested submission that carries a non-empty date" fails for non-empty but
unparseable dates, which the date coercion then drops. -/
theorem parse_fda_nonempty_date_cex :
    pyTruthy (JVal.str "notadate") = true ∧
    parse_fda (JVal.arr [JVal.obj [("sponsor_name", JVal.str "A"),
      ("submissions", JVal.arr [JVal.obj
        [("submission_date", JVal.str "notadate")]])]]) = Except.ok [] :=
  ⟨rfl, rfl⟩

/-- C7 amended: `parse_fda` emits exactly one NormalizedRecord per nested
submission that carries a non-empty AND parseable date, with the sponsor
taken from the parent entry (not the submission); the Acme scenario input
normalizes to exactly one record {source FDA, sponsor "Acme",
date 2023-01-15, submission_type "ORIG"}; entries with no dated submission
contribute zero records. -/
theorem parse_fda_per_submission (sp : JVal) (sfs : List (List (String × JVal))) :
    parse_fda (JVal.arr [JVal.obj [("sponsor_name", sp),
        ("submissions", JVal.arr (sfs.map JVal.obj))]]) =
      Except.ok (sfs.filterMap (subRow sp)) ∧
    (∀ r ∈ sfs.filterMap (subRow sp), r.sponsor = sp) ∧
    parse_fda acmeRaw = Except.ok [acmeRow] := by
  refine ⟨?_, ?_, rfl⟩
  · obtain ⟨raws, h1, h2⟩ := buildFdaSubRows_objs sp sfs
    simp [parse_fda, pyIter, okBind, buildFdaRows, pyGet, lookupField, h1,
      pureExceptOk, h2]
  · intro r hr
    obtain ⟨fields, _, hsub⟩ := List.mem_filterMap.mp hr
    unfold subRow at hsub
    by_cases hd : pyTruthy ((lookupField fields "submission_date").getD JVal.null)
    · rw [if_pos hd] at hsub
      obtain ⟨dt, _, hrow⟩ := Option.map_eq_some'.mp hsub
      rw [← hrow]
    · rw [if_neg hd] at hsub
      cases hsub

/-- Witness for C7 amended: the Acme scenario instantiates the general
per-submission statement. -/
theorem parse_fda_per_submission_witness :
    parse_fda (JVal.arr [JVal.obj [("sponsor_name", JVal.str "Acme"),
        ("submissions", JVal.arr [JVal.obj
          [("submission_date", JVal.str "20230115"),
           ("submission_type", JVal.str "ORIG")]])]]) =
      Except.ok [acmeRow] :=
  (parse_fda_per_submission (JVal.str "Acme")
    [[("submission_date", JVal.str "20230115"),
      ("submission_type", JVal.str "ORIG")]]).1

theorem rows_of_parse_shape {data : JVal} {rows : List Row}
    (builder : List JVal → Except PyErr (List RawRow))
    (h : (do
        let xs ← pyIter data
        let raws ← builder xs
        pure (finalizeRows raws) : Except PyErr (List Row)) = Except.ok rows) :
    ∀ r ∈ rows, r.date.isSome = true := by
  cases hit : pyIter data with
  | error e => rw [hit, errBind] at h; exact absurd h (by simp)
  | ok xs =>
    rw [hit, okBind] at h
    cases hbr : builder xs with
    | error e => rw [hbr, errBind] at h; exact absurd h (by simp)
    | ok raws =>
      rw [hbr, okBind, pureExceptOk] at h
      obtain rfl := Except.ok.inj h
      exact fun r hr => mem_finalizeRows_dated r raws hr

theorem fdaBranch_dated (fda : Except PyErr JVal) :
    ∀ r ∈ fdaBranchPatched fda, r.date.isSome = true := by
  intro r hr
  unfold fdaBranchPatched at hr
  cases hres : (do let raw ← fda; parse_fda raw : Except PyErr (List Row)) with
  | error e => rw [hres] at hr; simp at hr
  | ok rows =>
    rw [hres] at hr
    simp only at hr
    cases hfda : fda with
    | error e => rw [hfda, errBind] at hres; exact absurd hres (by simp)
    | ok raw =>
      rw [hfda, okBind] at hres
      exact rows_of_parse_shape buildFdaRows hres r hr

theorem trialFrames_dated (phases : List (String × Except PyErr JVal))
    (frame : List Row) (hf : frame ∈ trialFramesPatched phases) :
    ∀ r ∈ frame, r.date.isSome = true := by
  unfold trialFramesPatched at hf
  obtain ⟨p, _, hmatch⟩ := List.mem_filterMap.mp hf
  cases hres : (do let raw ← p.2; parse_trials raw p.1 : Except PyErr (List Row)) with
  | error e => rw [hres] at hmatch; simp at hmatch
  | ok rows =>
    rw [hres] at hmatch
    simp only [Option.some.injEq] at hmatch
    subst hmatch
    cases hp2 : p.2 with
    | error e => rw [hp2, errBind] at hres; exact absurd hres (by simp)
    | ok raw =>
      rw [hp2, okBind] at hres
      exact rows_of_parse_shape (buildTrialRows p.1) hres

/-- C6: every NormalizedRecord in the combined table has a valid, parseable
date — the normalizers exclude records whose date fails parsing before
aggregation — and the aggregator only counts keys coming from records with a
parseable date (pandas groupby drops null keys). -/
theorem combined_dates_valid (fda : Except PyErr JVal)
    (phases : List (String × Except PyErr JVal)) :
    (∀ r ∈ runPipelinePatched fda phases, r.date.isSome = true) ∧
    (∀ rows : List Row, ∀ k : MonthKey,
      k ∈ (monthlyCounts rows).map Prod.fst →
        ∃ r ∈ rows, rowKey r = some k ∧ r.date.isSome = true) := by
  constructor
  · intro r hr
    unfold runPipelinePatched at hr
    by_cases hc : (fdaBranchPatched fda).isEmpty = true ∧
        ((trialFramesPatched phases).flatten).isEmpty = true
    · rw [if_pos hc] at hr; simp at hr
    · rw [if_neg hc] at hr
      rcases List.mem_append.mp hr with hmem | hmem
      · exact fdaBranch_dated fda r hmem
      · obtain ⟨frame, hframe, hrf⟩ := List.mem_flatten.mp hmem
        exact trialFrames_dated phases frame hframe r hrf
  · intro rows k hk
    obtain ⟨kc, hmem, hfst⟩ := List.mem_map.mp hk
    obtain ⟨k2, hk2, hpair⟩ := List.mem_map.mp hmem
    have hkk : k2 = k := by
      have h1 := congrArg Prod.fst hpair
      simp only at h1
      rw [h1, hfst]
    subst hkk
    have hk3 : k2 ∈ (rows.filterMap rowKey).dedup :=
      (List.perm_insertionSort keyLe _).mem_iff.mp hk2
    obtain ⟨r, hr, hkey⟩ := List.mem_filterMap.mp (List.mem_dedup.mp hk3)
    refine ⟨r, hr, hkey, ?_⟩
    unfold rowKey at hkey
    cases hd : r.date with
    | none => rw [hd] at hkey; cases hkey
    | some d => rfl

/-- Witness for C6: the Acme record in a concrete combined table has a
parseable date, and the key (2023-01, FDA) of the scenario aggregation comes
from a dated record. -/
theorem combined_dates_valid_witness :
    acmeRow.date.isSome = true ∧
    ∃ r ∈ scenarioRows, rowKey r = some ((2023, 1), Source.fda) ∧
      r.date.isSome = true :=
  ⟨(combined_dates_valid (Except.ok acmeRaw) []).1 acmeRow
    (by rw [show runPipelinePatched (Except.ok acmeRaw) [] = [acmeRow] from rfl]
        exact List.mem_singleton.mpr rfl),
   (combined_dates_valid (Except.ok acmeRaw) []).2 scenarioRows
    ((2023, 1), Source.fda) (by decide)⟩

theorem fdaBranch_eq_spec (fda : Except PyErr JVal) :
    fdaBranchPatched fda =
      (match fda with
       | Except.ok raw =>
         match parse_fda raw with
         | Except.ok rows => rows
         | Except.error _ => []
       | Except.error _ => []) := by
  cases fda with
  | error e => rfl
  | ok raw =>
    unfold fdaBranchPatched
    rw [okBind]

theorem trialFrames_flatten_eq_spec (phases : List (String × Except PyErr JVal)) :
    (trialFramesPatched phases).flatten =
      (phases.map fun p =>
        match p.2 with
        | Except.ok raw =>
          match parse_trials raw p.1 with
          | Except.ok rows => rows
          | Except.error _ => []
        | Except.error _ => []).flatten := by
  induction phases with
  | nil => rfl
  | cons p ps ih =>
    rw [List.map_cons, List.flatten_cons]
    cases hp2 : p.2 with
    | error e =>
      have : trialFramesPatched (p :: ps) = trialFramesPatched ps := by
        unfold trialFramesPatched
        rw [List.filterMap_cons, hp2, errBind]
      rw [this, ih, List.nil_append]
    | ok raw =>
      cases hres : parse_trials raw p.1 with
      | error e =>
        have heq : trialFramesPatched (p :: ps) = trialFramesPatched ps := by
          unfold trialFramesPatched
          rw [List.filterMap_cons, hp2, okBind, hres]
        rw [heq, ih]
        simp [hres]
      | ok rows =>
        have heq : trialFramesPatched (p :: ps) = rows :: trialFramesPatched ps := by
          unfold trialFramesPatched
          rw [List.filterMap_cons, hp2, okBind, hres]
        rw [heq, List.flatten_cons, ih]
        simp [hres]

/-- C1 (amended scope): in the patched/v1 drivers a failure in one source's
fetch does not abort the others — for every assignment of outcomes to the
regulatory fetch and to each per-phase trial fetch, the driver completes and
the combined table equals the concatenation of the normalized record sets of
the succeeding fetches only (regulatory first, then phases in order). -/
theorem pipeline_partial_failure (fda : Except PyErr JVal)
    (phases : List (String × Except PyErr JVal)) :
    runPipelinePatched fda phases = specCombined fda phases := by
  unfold runPipelinePatched specCombined
  rw [← fdaBranch_eq_spec, ← trialFrames_flatten_eq_spec]
  by_cases hc : (fdaBranchPatched fda).isEmpty = true ∧
      ((trialFramesPatched phases).flatten).isEmpty = true
  · rw [if_pos hc, List.isEmpty_iff.mp hc.1, List.isEmpty_iff.mp hc.2]
    rfl
  · rw [if_neg hc]

/-- C1 counterexample (original `app.py` driver): with the regulatory fetch
failing and one trial phase succeeding with one record, the `app.py` pipeline
aborts with the fetch error instead of producing the one-record combined
table that the succeeding source provides. -/
theorem pipeline_aborts_app_cex :
    runPipelineApp (Except.error (PyErr.cause FailCause.timeout))
        [("Phase 3", Except.ok sampleTrialsRaw)] =
      Except.error (PyErr.cause FailCause.timeout) ∧
    specCombined (Except.error (PyErr.cause FailCause.timeout))
        [("Phase 3", Except.ok sampleTrialsRaw)] = [sampleTrialRow] ∧
    (Except.error (PyErr.cause FailCause.timeout) : Except PyErr (List Row)) ≠
      Except.ok [sampleTrialRow] :=
  ⟨rfl, rfl, fun h => Except.noConfusion h⟩

/-- C8: the aggregator buckets each record by truncating its date to
year-month granularity and produces the count of records per (month, source)
pair — every emitted pair carries the exact count of its records and a
positive one (no zero-count rows), every represented (month, source) pair is
emitted, rows are sorted by month ascending, and the spec's scenario (2023-01:
2 regulatory + 1 trial; 2023-02: 2 trial) yields exactly those three pairs
with no row for (2023-02, regulatory). -/
theorem monthly_activity (rows : List Row) :
    (∀ k c, (k, c) ∈ monthlyCounts rows →
       c = rows.countP (fun r => decide (rowKey r = some k)) ∧ 0 < c) ∧
    (∀ r ∈ rows, ∀ k, rowKey r = some k →
       (k, rows.countP fun r2 => decide (rowKey r2 = some k)) ∈ monthlyCounts rows) ∧
    List.Pairwise monthLe ((monthlyCounts rows).map fun kc => kc.1.1) ∧
    monthlyCounts scenarioRows =
      [(((2023, 1), Source.trials), 1), (((2023, 1), Source.fda), 2),
       (((2023, 2), Source.trials), 2)] := by
  refine ⟨?_, ?_, ?_, by decide⟩
  · intro k c hm
    obtain ⟨k2, hk2, hpair⟩ := List.mem_map.mp hm
    obtain ⟨h1, h2⟩ := Prod.mk.inj hpair
    subst h1
    refine ⟨h2.symm, ?_⟩
    rw [← h2]
    have hk3 : k2 ∈ (rows.filterMap rowKey).dedup :=
      (List.perm_insertionSort keyLe _).mem_iff.mp hk2
    obtain ⟨r, hr, hkey⟩ := List.mem_filterMap.mp (List.mem_dedup.mp hk3)
    exact List.countP_pos_iff.mpr ⟨r, hr, by simp [hkey]⟩
  · intro r hr k hkey
    have hk1 : k ∈ rows.filterMap rowKey := List.mem_filterMap.mpr ⟨r, hr, hkey⟩
    have hk2 : k ∈ List.insertionSort keyLe ((rows.filterMap rowKey).dedup) :=
      (List.perm_insertionSort keyLe _).mem_iff.mpr (List.mem_dedup.mpr hk1)
    exact List.mem_map_of_mem _ hk2
  · have hs := List.sorted_insertionSort keyLe ((rows.filterMap rowKey).dedup)
    unfold monthlyCounts
    rw [List.map_map]
    refine List.Pairwise.map _ ?_ hs
    intro a b hab
    rcases a with ⟨⟨ay, am⟩, asrc⟩
    rcases b with ⟨⟨by_, bm⟩, bsrc⟩
    simp only [Function.comp_apply, keyLe, monthLe] at hab ⊢
    omega

/-- Witness for C8: in the scenario table, the (2023-01, regulatory) pair is
emitted with its exact count 2, and the pair of the first scenario record is
represented. -/
theorem monthly_activity_witness :
    ((((2023, 1), Source.fda), 2) ∈ monthlyCounts scenarioRows ∧
      2 = scenarioRows.countP fun r =>
        decide (rowKey r = some ((2023, 1), Source.fda))) ∧
    (((2023, 1), Source.fda),
      scenarioRows.countP fun r2 =>
        decide (rowKey r2 = some ((2023, 1), Source.fda))) ∈
      monthlyCounts scenarioRows :=
  ⟨⟨by decide,
    ((monthly_activity scenarioRows).1 ((2023, 1), Source.fda) 2 (by decide)).1⟩,
   (monthly_activity scenarioRows).2.1 (datedRow Source.fda 2023 1 10)
     (List.mem_cons_self ..) ((2023, 1), Source.fda) (by decide)⟩

/-- C9: aggregating an empty collection of record sets (or one where every
source contributed zero records) returns an empty combined table and an
empty monthly table, and cannot fail — `aggregate` is a total function. -/
theorem aggregate_empty (sets : List (List Row)) (h : ∀ s ∈ sets, s = []) :
    aggregate sets = ([], []) := by
  have hfl : sets.flatten = [] := List.flatten_eq_nil_iff.mpr h
  unfold aggregate
  rw [hfl]
  rfl

/-- Witness for C9: the empty collection and a collection of two empty
record sets both aggregate to the empty result. -/
theorem aggregate_empty_witness :
    aggregate [] = ([], []) ∧ aggregate [[], []] = ([], []) :=
  ⟨aggregate_empty [] (fun s hs => absurd hs (List.not_mem_nil s)),
   aggregate_empty [[], []] (by
     intro s hs
     rcases List.mem_cons.mp hs with rfl | hs2
     · rfl
     · rcases List.mem_cons.mp hs2 with rfl | hs3
       · rfl
       · exact absurd hs3 (List.not_mem_nil s))⟩
